import Mathlib

/-!
Verification of `library/dellemc/idrac/idrac_syslog.py` (Dell EMC OpenManage
Ansible module `idrac_syslog`, version 2.1.1).

The module is an adapter around an external SDK (`omsdk`): it validates flat
parameters, opens a session to an iDRAC controller, sets a liaison share,
dispatches on the `syslog` parameter to `enable_syslog` / `disable_syslog`
(with `apply_changes=False` plus `is_change_applicable()` in check mode),
computes a `changed` flag from the returned job dictionary, and routes
exceptions to terminal Ansible outcomes (`exit_json` / `fail_json`).

The SDK and transport are external collaborators; they are embedded as an
oracle (`SdkBehavior`) whose calls may return a job dictionary or raise one of
the exception classes named in the source's `except` clauses.  Every SDK call
the adapter issues is recorded in a trace so that call-pattern invariants
(which setter is issued, what happens in check mode, session release) can be
stated and proved.
-/

namespace IdracSyslog

/-- JSON values, modelling the Python dictionaries exchanged with the SDK:
job/status results returned by the setter calls and the decoded error body
produced by `json.load(err)` on an `HTTPError`. -/
inductive JsonVal where
  | null
  | bool (b : Bool)
  | num (n : Int)
  | str (s : String)
  | arr (elems : List JsonVal)
  | obj (fields : List (String × JsonVal))

/-- A Python dictionary with string keys, as returned by the SDK calls. -/
abbrev Dict := List (String × JsonVal)

/-- `d.get(key)`: Python `dict.get`, returning `None` when the key is absent. -/
def dictGet : Dict → String → Option JsonVal
  | [], _ => none
  | (k, v) :: rest, key => if k = key then some v else dictGet rest key

/-- Python `x == "t"` where `x` is `dict.get`'s result: `None == "t"` is
`False`, and a non-string value never equals a string. -/
def pyEqStr : Option JsonVal → String → Bool
  | some (.str s), t => s == t
  | _, _ => false

/-- The exception classes that the source's `try`/`except` clauses in `main`
name: `HTTPError` (whose response body decodes to JSON), `URLError`, and the
tuple `(RuntimeError, SSLValidationError, ConnectionError, KeyError,
ImportError, ValueError, TypeError)`.  An `httpError` carries the decoded JSON
body of the error response (the value `json.load(err)` produces). -/
inductive SdkError where
  | httpError (msg : String) (body : JsonVal)
  | urlError (msg : String)
  | runtimeError (msg : String)
  | sslValidationError (msg : String)
  | connectionError (msg : String)
  | keyError (msg : String)
  | importError (msg : String)
  | valueError (msg : String)
  | typeError (msg : String)

/-- The SDK calls `run_setup_idrac_syslog` can issue on the session object
(`idrac.config_mgr`), with the `apply_changes` flag on the two setters. -/
inductive SdkCall where
  | setLiasonShare
  | enableSyslog (applyChanges : Bool)
  | disableSyslog (applyChanges : Bool)
  | isChangeApplicable
  deriving DecidableEq, Repr

/-- Events of one invocation: session lifecycle plus the SDK calls issued
inside the `with iDRACConnection(...)` block. -/
inductive Event where
  | sessionOpened
  | sessionReleased
  | sdkCall (c : SdkCall)
  deriving DecidableEq, Repr

/-- The validated module parameters, after `AnsibleModule` applied the
`argument_spec` of `main` (defaults filled in, `choices` checked). -/
structure Params where
  idrac_ip : String
  idrac_user : String
  idrac_password : String
  idrac_port : Int
  share_name : String
  share_user : Option String
  share_password : Option String
  share_mnt : Option String
  syslog : String
  deriving DecidableEq, Repr

/-- The caller-supplied parameters before validation: every option may be
omitted (`none`). -/
structure InputParams where
  idrac_ip : Option String
  idrac_user : Option String
  idrac_password : Option String
  idrac_port : Option Int
  share_name : Option String
  share_user : Option String
  share_password : Option String
  share_mnt : Option String
  syslog : Option String
  deriving DecidableEq, Repr

/-- Modelled from the spec: `AnsibleModule` (external to this repository)
processes the `argument_spec` literal of `main` — it rejects an invocation
missing a `required=True` parameter, fills in `default` values for omitted
optional parameters (`idrac_port` defaults to `443`, `syslog` defaults to
`"Enabled"`), and rejects a `syslog` value outside `choices:
['Enabled', 'Disabled']` before the module body runs. -/
def resolveParams (inp : InputParams) : Except String Params :=
  match inp.idrac_ip, inp.idrac_user, inp.idrac_password, inp.share_name with
  | some ip, some user, some pw, some share =>
    let sys := inp.syslog.getD "Enabled"
    if sys = "Enabled" ∨ sys = "Disabled" then
      .ok { idrac_ip := ip, idrac_user := user, idrac_password := pw,
            idrac_port := inp.idrac_port.getD 443,
            share_name := share, share_user := inp.share_user,
            share_password := inp.share_password, share_mnt := inp.share_mnt,
            syslog := sys }
    else
      .error ("value of syslog must be one of: Enabled, Disabled, got: " ++ sys)
  | _, _, _, _ => .error "missing required arguments"

/-- The external SDK and transport as an oracle: what each call the adapter
can issue would return (a job dictionary) or raise (an `SdkError`) during this
invocation.  `connect` stands for entering `iDRACConnection(...)`;
`enable_syslog`/`disable_syslog` take their `apply_changes` argument (the
SDK's default for an omitted argument is to apply the change). -/
structure SdkBehavior where
  connect : Except SdkError Unit
  setLiasonShare : Except SdkError Unit
  enable_syslog : Bool → Except SdkError Dict
  disable_syslog : Bool → Except SdkError Dict
  is_change_applicable : Except SdkError Dict

/-- `run_setup_idrac_syslog(idrac, module)`: sets the liaison share, then
branches on `module.check_mode` and `module.params['syslog']`.  Returns the
result `msg` (or the raised error) together with the list of SDK calls issued,
in order; a call is recorded when issued, before its outcome is examined.
`.ok none` is the path where `msg` is never bound (syslog outside the two
literals without check mode), on which Python's `return msg` raises an
uncaught `UnboundLocalError`. -/
def run_setup_idrac_syslog (sdk : SdkBehavior) (p : Params) (checkMode : Bool) :
    Except SdkError (Option Dict) × List SdkCall :=
  match sdk.setLiasonShare with
  | .error e => (.error e, [.setLiasonShare])
  | .ok _ =>
    if checkMode then
      if p.syslog = "Enabled" then
        match sdk.enable_syslog false with
        | .error e => (.error e, [.setLiasonShare, .enableSyslog false])
        | .ok _ =>
          match sdk.is_change_applicable with
          | .error e => (.error e, [.setLiasonShare, .enableSyslog false, .isChangeApplicable])
          | .ok pr => (.ok (some pr), [.setLiasonShare, .enableSyslog false, .isChangeApplicable])
      else if p.syslog = "Disabled" then
        match sdk.disable_syslog false with
        | .error e => (.error e, [.setLiasonShare, .disableSyslog false])
        | .ok _ =>
          match sdk.is_change_applicable with
          | .error e => (.error e, [.setLiasonShare, .disableSyslog false, .isChangeApplicable])
          | .ok pr => (.ok (some pr), [.setLiasonShare, .disableSyslog false, .isChangeApplicable])
      else
        match sdk.is_change_applicable with
        | .error e => (.error e, [.setLiasonShare, .isChangeApplicable])
        | .ok pr => (.ok (some pr), [.setLiasonShare, .isChangeApplicable])
    else
      if p.syslog = "Enabled" then
        match sdk.enable_syslog true with
        | .error e => (.error e, [.setLiasonShare, .enableSyslog true])
        | .ok d => (.ok (some d), [.setLiasonShare, .enableSyslog true])
      else if p.syslog = "Disabled" then
        match sdk.disable_syslog true with
        | .error e => (.error e, [.setLiasonShare, .disableSyslog true])
        | .ok d => (.ok (some d), [.setLiasonShare, .disableSyslog true])
      else
        (.ok none, [.setLiasonShare])

/-- The `changed` computation of `main` (lines 206-210):
`changed = False; if msg.get('Status') == "Success": changed = True;
if msg.get('Message') == "No changes found to commit!": changed = False`. -/
def computeChanged (msg : Dict) : Bool :=
  if pyEqStr (dictGet msg "Status") "Success" then
    if pyEqStr (dictGet msg "Message") "No changes found to commit!" then false
    else true
  else false

/-- How the module terminates: `module.exit_json(msg=..., changed=...)`,
`module.exit_json(msg=..., unreachable=True)`, `module.fail_json(msg=...,
error_info=...)` (with `errorInfo = none` when `fail_json` is called without
`error_info`), or an exception escaping `main` uncaught. -/
inductive ModuleExit where
  | exitSuccess (msg : Dict) (changed : Bool)
  | exitUnreachable (msg : String)
  | failJson (msg : String) (errorInfo : Option JsonVal)
  | uncaught (excName : String)

/-- The `except` clauses of `main` (lines 211-217): `HTTPError` fails with
`error_info=json.load(err)`; `URLError` exits with `unreachable=True`; the
remaining caught classes fail with the exception's message. -/
def routeException : SdkError → ModuleExit
  | .httpError m body => .failJson m (some body)
  | .urlError m => .exitUnreachable m
  | .runtimeError m => .failJson m none
  | .sslValidationError m => .failJson m none
  | .connectionError m => .failJson m none
  | .keyError m => .failJson m none
  | .importError m => .failJson m none
  | .valueError m => .failJson m none
  | .typeError m => .failJson m none

/-- The body of the `try` block: enter `with iDRACConnection(module.params)`
(which may raise), run `run_setup_idrac_syslog`, and — per the `with`
statement and the spec's session contract — release the session on every exit
from the block, normal or exceptional, before any `except` clause runs. -/
def mainAttempt (sdk : SdkBehavior) (p : Params) (checkMode : Bool) :
    Except SdkError (Option Dict) × List Event :=
  match sdk.connect with
  | .error e => (.error e, [])
  | .ok _ =>
    let res := run_setup_idrac_syslog sdk p checkMode
    (res.1, Event.sessionOpened :: (res.2.map Event.sdkCall ++ [Event.sessionReleased]))

/-- `main()`: validate the parameters against the `argument_spec` (a failure
there is a `fail_json` before the `try` block), run the `try` body, compute
`changed` from the result, and exit.  A raised `SdkError` is routed by the
`except` clauses; the never-bound `msg` path would raise `UnboundLocalError`,
which no `except` clause catches. -/
def main (inp : InputParams) (checkMode : Bool) (sdk : SdkBehavior) :
    ModuleExit × List Event :=
  match resolveParams inp with
  | .error m => (.failJson m none, [])
  | .ok p =>
    match mainAttempt sdk p checkMode with
    | (.error e, tr) => (routeException e, tr)
    | (.ok none, tr) => (.uncaught "UnboundLocalError", tr)
    | (.ok (some msg), tr) => (.exitSuccess msg (computeChanged msg), tr)

/-! ### Concrete fixtures for witnesses -/

/-- A full caller input: required parameters given, `idrac_port` omitted,
`syslog` given as `"Enabled"` (mirroring the module's EXAMPLES section). -/
def inpFull : InputParams :=
  { idrac_ip := some "192.168.0.1", idrac_user := some "user_name",
    idrac_password := some "user_password", idrac_port := none,
    share_name := some "192.168.0.2:/share", share_user := some "share_user_name",
    share_password := some "share_user_pwd", share_mnt := some "/mnt/share",
    syslog := some "Enabled" }

/-- The validated parameters `resolveParams` yields for `inpFull`. -/
def pFull : Params :=
  { idrac_ip := "192.168.0.1", idrac_user := "user_name",
    idrac_password := "user_password", idrac_port := 443,
    share_name := "192.168.0.2:/share", share_user := some "share_user_name",
    share_password := some "share_user_pwd", share_mnt := some "/mnt/share",
    syslog := "Enabled" }

/-- A successful job result with a non-sentinel message. -/
def msgSuccess : Dict :=
  [("Status", .str "Success"),
   ("Message", .str "Successfully imported and applied Server Configuration Profile.")]

/-- A successful job result carrying the no-op sentinel message. -/
def msgNoChange : Dict :=
  [("Status", .str "Success"), ("Message", .str "No changes found to commit!")]

/-- A failed job result. -/
def msgFailed : Dict :=
  [("Status", .str "Failed"), ("Message", .str "Job completed with errors.")]

/-- A check-mode applicability prediction result. -/
def predDict : Dict :=
  [("Status", .str "Success"), ("Message", .str "Changes found to commit!")]

/-- An SDK oracle on which every call succeeds. -/
def sdkOk : SdkBehavior :=
  { connect := .ok (), setLiasonShare := .ok (),
    enable_syslog := fun _ => .ok msgSuccess,
    disable_syslog := fun _ => .ok msgSuccess,
    is_change_applicable := .ok predDict }

/-- An SDK oracle whose session opening raises a connectivity error. -/
def sdkUrlErr : SdkBehavior :=
  { sdkOk with connect := .error (.urlError "<urlopen error [Errno 113] No route to host>") }

/-- A decoded HTTP error body (the shape of the RETURNS `error_info` sample). -/
def errBody : JsonVal :=
  .obj [("error", .obj [("code", .str "Base.1.0.GeneralError"),
                        ("message", .str "A general error has occurred.")])]

/-- An SDK oracle whose enable call raises an `HTTPError` with a JSON body. -/
def sdkHttpErr : SdkBehavior :=
  { sdkOk with enable_syslog := fun _ => .error (.httpError "HTTP Error 400: Bad Request" errBody) }

/-- An SDK oracle whose enable call returns a non-Success job result. -/
def sdkFailedJob : SdkBehavior :=
  { sdkOk with enable_syslog := fun _ => .ok msgFailed }

/-- Whether an SDK call is one of the two setter operations. -/
def isSetterCall : SdkCall → Bool
  | .enableSyslog _ => true
  | .disableSyslog _ => true
  | _ => false

/-- Whether an SDK call is a mutating call: a setter issued with the apply
flag on (the SDK applies the staged change to the device). -/
def isMutatingCall : SdkCall → Bool
  | .enableSyslog b => b
  | .disableSyslog b => b
  | _ => false

/-- The applicability-prediction call is the only SDK call issued. -/
def onlyPredictionIssued (calls : List SdkCall) : Prop :=
  ∀ c ∈ calls, c = SdkCall.isChangeApplicable

/-! ### Supporting lemmas -/

/-- `pyEqStr` decides equality with a string literal. -/
theorem pyEqStr_eq_true (o : Option JsonVal) (t : String) :
    pyEqStr o t = true ↔ o = some (JsonVal.str t) := by
  cases o with
  | none => simp [pyEqStr]
  | some v => cases v <;> simp [pyEqStr]

/-- Parameters that pass validation carry a `syslog` value from `choices`. -/
theorem resolveParams_syslog_mem (inp : InputParams) (p : Params)
    (h : resolveParams inp = .ok p) :
    p.syslog = "Enabled" ∨ p.syslog = "Disabled" := by
  unfold resolveParams at h
  cases hip : inp.idrac_ip <;> rw [hip] at h <;>
    cases hu : inp.idrac_user <;> rw [hu] at h <;>
      cases hpw : inp.idrac_password <;> rw [hpw] at h <;>
        cases hs : inp.share_name <;> rw [hs] at h
  all_goals try exact (Except.noConfusion h)
  dsimp only at h
  by_cases hc : (inp.syslog.getD "Enabled" = "Enabled" ∨ inp.syslog.getD "Enabled" = "Disabled")
  · rw [if_pos hc] at h
    injection h with h2
    subst h2
    exact hc
  · rw [if_neg hc] at h
    exact (Except.noConfusion h)

/-- When the `try` body returns a result dictionary, `main` exits through
`exit_json` with that dictionary and the computed `changed` flag. -/
theorem main_of_attempt_ok (inp : InputParams) (cm : Bool) (sdk : SdkBehavior)
    (p : Params) (msg : Dict)
    (hp : resolveParams inp = .ok p)
    (hok : (mainAttempt sdk p cm).1 = .ok (some msg)) :
    (main inp cm sdk).1 = .exitSuccess msg (computeChanged msg) := by
  unfold main
  rw [hp]
  dsimp only
  rcases hma : mainAttempt sdk p cm with ⟨r, tr⟩
  rw [hma] at hok
  dsimp only at hok
  subst hok
  rfl

/-- When the `try` body raises, `main` terminates through the matching
`except` clause. -/
theorem main_of_attempt_error (inp : InputParams) (cm : Bool) (sdk : SdkBehavior)
    (p : Params) (e : SdkError)
    (hp : resolveParams inp = .ok p)
    (he : (mainAttempt sdk p cm).1 = .error e) :
    (main inp cm sdk).1 = routeException e := by
  unfold main
  rw [hp]
  dsimp only
  rcases hma : mainAttempt sdk p cm with ⟨r, tr⟩
  rw [hma] at he
  dsimp only at he
  subst he
  rfl

/-- Characterization of the `changed` computation. -/
theorem computeChanged_iff (msg : Dict) :
    computeChanged msg = true ↔
      (dictGet msg "Status" = some (JsonVal.str "Success") ∧
       dictGet msg "Message" ≠ some (JsonVal.str "No changes found to commit!")) := by
  unfold computeChanged
  by_cases h1 : dictGet msg "Status" = some (JsonVal.str "Success")
  · rw [if_pos ((pyEqStr_eq_true _ _).mpr h1)]
    by_cases h2 : dictGet msg "Message" = some (JsonVal.str "No changes found to commit!")
    · rw [if_pos ((pyEqStr_eq_true _ _).mpr h2)]
      simp [h1, h2]
    · rw [if_neg (fun hb => h2 ((pyEqStr_eq_true _ _).mp hb))]
      simp [h1, h2]
  · rw [if_neg (fun hb => h1 ((pyEqStr_eq_true _ _).mp hb))]
    simp [h1]

/-! ### Claim theorems -/

/-- C1: For every operation result dictionary returned by the SDK call, the
module sets `changed=true` if and only if the result's `Status` field equals
`"Success"` and its `Message` field does not equal the literal
`"No changes found to commit!"`; in every other case (Success status with
that exact message, or any non-Success status) `changed=false`. -/
theorem changed_iff_success_without_nochange_message
    (inp : InputParams) (cm : Bool) (sdk : SdkBehavior) (p : Params) (msg : Dict)
    (hp : resolveParams inp = .ok p)
    (hok : (mainAttempt sdk p cm).1 = .ok (some msg)) :
    (main inp cm sdk).1 = .exitSuccess msg (computeChanged msg) ∧
    (computeChanged msg = true ↔
      (dictGet msg "Status" = some (JsonVal.str "Success") ∧
       dictGet msg "Message" ≠ some (JsonVal.str "No changes found to commit!"))) :=
  ⟨main_of_attempt_ok inp cm sdk p msg hp hok, computeChanged_iff msg⟩

/-- Witness for C1 at a concrete successful run. -/
theorem changed_iff_success_without_nochange_message_witness :
    (main inpFull false sdkOk).1 = .exitSuccess msgSuccess (computeChanged msgSuccess) ∧
    (computeChanged msgSuccess = true ↔
      (dictGet msgSuccess "Status" = some (JsonVal.str "Success") ∧
       dictGet msgSuccess "Message" ≠ some (JsonVal.str "No changes found to commit!"))) :=
  changed_iff_success_without_nochange_message inpFull false sdkOk pFull msgSuccess rfl rfl

/-- C2: For every invocation whose `syslog` parameter is one of
`{"Enabled", "Disabled"}` (and whose liaison-share setup is reached), exactly
one of the two setter operations is invoked, selected solely by that
parameter: `"Enabled"` invokes only the enable operation, `"Disabled"` only
the disable operation (with the apply flag suppressed exactly in check
mode).  This holds whatever the setter's own outcome is. -/
theorem exactly_one_setter_selected_by_syslog_param
    (sdk : SdkBehavior) (p : Params) (cm : Bool)
    (hshare : sdk.setLiasonShare = .ok ()) :
    (p.syslog = "Enabled" →
      (run_setup_idrac_syslog sdk p cm).2.filter (fun c => isSetterCall c) =
        [.enableSyslog (!cm)]) ∧
    (p.syslog = "Disabled" →
      (run_setup_idrac_syslog sdk p cm).2.filter (fun c => isSetterCall c) =
        [.disableSyslog (!cm)]) := by
  constructor <;> intro h <;> unfold run_setup_idrac_syslog <;> rw [hshare, h] <;>
    cases cm <;>
    simp only [Bool.false_eq_true, String.reduceEq, if_false, if_pos, if_true,
               eq_self_iff_true, Bool.not_true, Bool.not_false]
  · rcases hset : sdk.enable_syslog true with e | d <;> simp [isSetterCall]
  · rcases hset : sdk.enable_syslog false with e | d
    · simp [isSetterCall]
    · rcases hic : sdk.is_change_applicable with e2 | pr <;> simp [isSetterCall]
  · rcases hset : sdk.disable_syslog true with e | d <;> simp [isSetterCall]
  · rcases hset : sdk.disable_syslog false with e | d
    · simp [isSetterCall]
    · rcases hic : sdk.is_change_applicable with e2 | pr <;> simp [isSetterCall]

/-- Witness for C2: concrete real-mode run with `syslog = "Enabled"`. -/
theorem exactly_one_setter_selected_by_syslog_param_witness :
    (run_setup_idrac_syslog sdkOk pFull false).2.filter (fun c => isSetterCall c) =
      [.enableSyslog true] :=
  (exactly_one_setter_selected_by_syslog_param sdkOk pFull false rfl).1 rfl

/-- C3 counterexample: in a concrete check-mode run the adapter also issues
the liaison-share call and the enable setter with the apply flag suppressed,
so the applicability-prediction call is not the only SDK call issued. -/
theorem check_mode_not_only_prediction_call :
    ¬ onlyPredictionIssued (run_setup_idrac_syslog sdkOk pFull true).2 := by
  intro honly
  have hmem : SdkCall.enableSyslog false ∈ (run_setup_idrac_syslog sdkOk pFull true).2 := by
    decide
  exact absurd (honly _ hmem) (by decide)

/-- C3 (amended): in check mode no mutating call (a setter with the apply
flag on) is ever issued, and when the body completes, the
applicability-prediction call was issued and its result is returned verbatim
as the result payload. -/
theorem check_mode_no_mutating_call_prediction_verbatim
    (sdk : SdkBehavior) (p : Params) :
    (∀ c ∈ (run_setup_idrac_syslog sdk p true).2, isMutatingCall c = false) ∧
    (∀ msg, (run_setup_idrac_syslog sdk p true).1 = .ok (some msg) →
      sdk.is_change_applicable = .ok msg ∧
      SdkCall.isChangeApplicable ∈ (run_setup_idrac_syslog sdk p true).2) := by
  unfold run_setup_idrac_syslog
  rcases hsl : sdk.setLiasonShare with e | u
  · exact ⟨fun c hc => by fin_cases hc; rfl,
           fun msg hmsg => Except.noConfusion hmsg⟩
  · simp only [if_pos]
    by_cases hE : p.syslog = "Enabled"
    · rw [if_pos hE]
      rcases hen : sdk.enable_syslog false with e2 | d
      · exact ⟨fun c hc => by fin_cases hc <;> rfl,
               fun msg hmsg => Except.noConfusion hmsg⟩
      · rcases hic : sdk.is_change_applicable with e3 | pr
        · exact ⟨fun c hc => by fin_cases hc <;> rfl,
                 fun msg hmsg => Except.noConfusion hmsg⟩
        · refine ⟨fun c hc => by fin_cases hc <;> rfl, fun msg hmsg => ?_⟩
          injection hmsg with h1
          injection h1 with h2
          subst h2
          exact ⟨rfl, by simp⟩
    · rw [if_neg hE]
      by_cases hD : p.syslog = "Disabled"
      · rw [if_pos hD]
        rcases hdis : sdk.disable_syslog false with e2 | d
        · exact ⟨fun c hc => by fin_cases hc <;> rfl,
                 fun msg hmsg => Except.noConfusion hmsg⟩
        · rcases hic : sdk.is_change_applicable with e3 | pr
          · exact ⟨fun c hc => by fin_cases hc <;> rfl,
                   fun msg hmsg => Except.noConfusion hmsg⟩
          · refine ⟨fun c hc => by fin_cases hc <;> rfl, fun msg hmsg => ?_⟩
            injection hmsg with h1
            injection h1 with h2
            subst h2
            exact ⟨rfl, by simp⟩
      · rw [if_neg hD]
        rcases hic : sdk.is_change_applicable with e3 | pr
        · exact ⟨fun c hc => by fin_cases hc <;> rfl,
                 fun msg hmsg => Except.noConfusion hmsg⟩
        · refine ⟨fun c hc => by fin_cases hc <;> rfl, fun msg hmsg => ?_⟩
          injection hmsg with h1
          injection h1 with h2
          subst h2
          exact ⟨rfl, by simp⟩

/-- Witness for the amended C3 at a concrete check-mode run. -/
theorem check_mode_no_mutating_call_prediction_verbatim_witness :
    sdkOk.is_change_applicable = .ok predDict ∧
    SdkCall.isChangeApplicable ∈ (run_setup_idrac_syslog sdkOk pFull true).2 :=
  (check_mode_no_mutating_call_prediction_verbatim sdkOk pFull).2 predDict rfl

/-- C4: in check (dry-run) mode the module invokes the selected setter with
the apply flag suppressed (`apply_changes=False`), then separately queries
`is_change_applicable`, and returns that prediction as the result payload
instead of performing the mutation. -/
theorem check_mode_setter_apply_suppressed_then_prediction
    (sdk : SdkBehavior) (p : Params) (d pr : Dict)
    (hshare : sdk.setLiasonShare = .ok ())
    (hpred : sdk.is_change_applicable = .ok pr) :
    (p.syslog = "Enabled" → sdk.enable_syslog false = .ok d →
      run_setup_idrac_syslog sdk p true =
        (.ok (some pr), [.setLiasonShare, .enableSyslog false, .isChangeApplicable])) ∧
    (p.syslog = "Disabled" → sdk.disable_syslog false = .ok d →
      run_setup_idrac_syslog sdk p true =
        (.ok (some pr), [.setLiasonShare, .disableSyslog false, .isChangeApplicable])) := by
  constructor <;> intro h hset <;> unfold run_setup_idrac_syslog <;>
    rw [hshare, h, hset, hpred] <;>
    simp only [String.reduceEq, if_false, if_pos, if_true]

/-- Witness for C4 at a concrete check-mode run. -/
theorem check_mode_setter_apply_suppressed_then_prediction_witness :
    run_setup_idrac_syslog sdkOk pFull true =
      (.ok (some predDict), [.setLiasonShare, .enableSyslog false, .isChangeApplicable]) :=
  (check_mode_setter_apply_suppressed_then_prediction sdkOk pFull msgSuccess predDict
    rfl rfl).1 rfl rfl

/-- C5: a connectivity (URL) error raised during the invocation makes the
module exit with `unreachable=true` carrying the error's message — not a
hard failure — and the exception does not propagate past the adapter. -/
theorem url_error_yields_unreachable
    (inp : InputParams) (cm : Bool) (sdk : SdkBehavior) (p : Params) (m : String)
    (hp : resolveParams inp = .ok p)
    (he : (mainAttempt sdk p cm).1 = .error (.urlError m)) :
    (main inp cm sdk).1 = .exitUnreachable m :=
  main_of_attempt_error inp cm sdk p _ hp he

/-- Witness for C5: connectivity error while opening the session. -/
theorem url_error_yields_unreachable_witness :
    (main inpFull false sdkUrlErr).1 =
      .exitUnreachable "<urlopen error [Errno 113] No route to host>" :=
  url_error_yields_unreachable inpFull false sdkUrlErr pFull _ rfl rfl

/-- C6: an HTTP error carrying a JSON error body makes the module terminate
with a hard failure whose `error_info` equals the JSON-parsed body of the
error response. -/
theorem http_error_failure_carries_parsed_body
    (inp : InputParams) (cm : Bool) (sdk : SdkBehavior) (p : Params)
    (m : String) (body : JsonVal)
    (hp : resolveParams inp = .ok p)
    (he : (mainAttempt sdk p cm).1 = .error (.httpError m body)) :
    (main inp cm sdk).1 = .failJson m (some body) :=
  main_of_attempt_error inp cm sdk p _ hp he

/-- Witness for C6: HTTP 400 with a structured JSON body. -/
theorem http_error_failure_carries_parsed_body_witness :
    (main inpFull false sdkHttpErr).1 =
      .failJson "HTTP Error 400: Bad Request" (some errBody) :=
  http_error_failure_carries_parsed_body inpFull false sdkHttpErr pFull _ errBody rfl rfl

/-- With a `syslog` value from `choices`, the body always binds `msg`: the
unbound-local path is unreachable. -/
theorem run_setup_ne_ok_none (sdk : SdkBehavior) (p : Params) (cm : Bool)
    (hs : p.syslog = "Enabled" ∨ p.syslog = "Disabled") :
    (run_setup_idrac_syslog sdk p cm).1 ≠ .ok none := by
  unfold run_setup_idrac_syslog
  rcases hsl : sdk.setLiasonShare with e | u
  · intro h
    exact Except.noConfusion h
  · cases cm
    · rcases hs with h | h <;> rw [h] <;>
        simp only [Bool.false_eq_true, String.reduceEq, if_false, if_pos, if_true]
      · rcases hen : sdk.enable_syslog true with e2 | d <;> simp
      · rcases hdis : sdk.disable_syslog true with e2 | d <;> simp
    · rcases hs with h | h <;> rw [h] <;>
        simp only [String.reduceEq, if_false, if_pos, if_true]
      · rcases hen : sdk.enable_syslog false with e2 | d
        · simp
        · rcases hic : sdk.is_change_applicable with e3 | pr <;> simp
      · rcases hdis : sdk.disable_syslog false with e2 | d
        · simp
        · rcases hic : sdk.is_change_applicable with e3 | pr <;> simp

/-- The `try` body's result is the result of `run_setup_idrac_syslog` when
the session opened. -/
theorem mainAttempt_fst_ok (sdk : SdkBehavior) (p : Params) (cm : Bool) (o : Option Dict)
    (h : (mainAttempt sdk p cm).1 = .ok o) :
    (run_setup_idrac_syslog sdk p cm).1 = .ok o := by
  unfold mainAttempt at h
  rcases hc : sdk.connect with e | u <;> rw [hc] at h <;> dsimp only at h
  · exact Except.noConfusion h
  · exact h

/-- In the `try` body's trace, an opened session is always released. -/
theorem mainAttempt_release (sdk : SdkBehavior) (p : Params) (cm : Bool) :
    Event.sessionOpened ∈ (mainAttempt sdk p cm).2 →
      Event.sessionReleased ∈ (mainAttempt sdk p cm).2 := by
  unfold mainAttempt
  rcases hc : sdk.connect with e | u <;> dsimp only
  · intro h
    cases h
  · intro _
    simp

/-- C7: every SDK/transport exception raised during the operation is caught
at the top level and translated to exactly one of three terminal outcomes —
a hard failure with a structured payload, a non-fatal unreachable outcome,
or a generic hard failure with the exception's message — and no exception
(including the latent unbound-result path) escapes the adapter boundary. -/
theorem all_exceptions_routed_to_terminal_outcomes
    (inp : InputParams) (cm : Bool) (sdk : SdkBehavior) :
    (∀ s, (main inp cm sdk).1 ≠ .uncaught s) ∧
    (∀ p e, resolveParams inp = .ok p → (mainAttempt sdk p cm).1 = .error e →
      (main inp cm sdk).1 = routeException e) ∧
    (∀ e, (∃ m b, routeException e = .failJson m b) ∨
          (∃ m, routeException e = .exitUnreachable m)) := by
  refine ⟨?_, fun p e hp he => main_of_attempt_error inp cm sdk p e hp he, ?_⟩
  · intro s hcon
    unfold main at hcon
    cases hp : resolveParams inp with
    | error m =>
      rw [hp] at hcon
      exact ModuleExit.noConfusion hcon
    | ok p =>
      rw [hp] at hcon
      dsimp only at hcon
      rcases hma : mainAttempt sdk p cm with ⟨r, tr⟩
      rw [hma] at hcon
      cases r with
      | error e =>
        dsimp only at hcon
        cases e <;> exact ModuleExit.noConfusion hcon
      | ok o =>
        cases o with
        | none =>
          have hs := resolveParams_syslog_mem inp p hp
          have h1 : (run_setup_idrac_syslog sdk p cm).1 = .ok none :=
            mainAttempt_fst_ok sdk p cm none (by rw [hma])
          exact run_setup_ne_ok_none sdk p cm hs h1
        | some msg =>
          dsimp only at hcon
          exact ModuleExit.noConfusion hcon
  · intro e
    cases e with
    | httpError m body => exact .inl ⟨m, some body, rfl⟩
    | urlError m => exact .inr ⟨m, rfl⟩
    | runtimeError m => exact .inl ⟨m, none, rfl⟩
    | sslValidationError m => exact .inl ⟨m, none, rfl⟩
    | connectionError m => exact .inl ⟨m, none, rfl⟩
    | keyError m => exact .inl ⟨m, none, rfl⟩
    | importError m => exact .inl ⟨m, none, rfl⟩
    | valueError m => exact .inl ⟨m, none, rfl⟩
    | typeError m => exact .inl ⟨m, none, rfl⟩

/-- Witness for C7: the routing component applied on a concrete run that
raises, plus the no-escape component at that run. -/
theorem all_exceptions_routed_to_terminal_outcomes_witness :
    (main inpFull false sdkHttpErr).1 ≠ .uncaught "UnboundLocalError" ∧
    (main inpFull false sdkHttpErr).1 =
      routeException (.httpError "HTTP Error 400: Bad Request" errBody) :=
  ⟨(all_exceptions_routed_to_terminal_outcomes inpFull false sdkHttpErr).1
      "UnboundLocalError",
   (all_exceptions_routed_to_terminal_outcomes inpFull false sdkHttpErr).2.1
      pFull (.httpError "HTTP Error 400: Bad Request" errBody) rfl rfl⟩

/-- C8: on every exit path on which the session to the remote controller was
opened — normal completion or an exception raised inside the `with` block —
the session is released before the adapter terminates. -/
theorem session_released_on_every_exit_path
    (inp : InputParams) (cm : Bool) (sdk : SdkBehavior)
    (h : Event.sessionOpened ∈ (main inp cm sdk).2) :
    Event.sessionReleased ∈ (main inp cm sdk).2 := by
  unfold main at h ⊢
  cases hp : resolveParams inp with
  | error m =>
    rw [hp] at h
    cases h
  | ok p =>
    rw [hp] at h
    dsimp only at h ⊢
    rcases hma : mainAttempt sdk p cm with ⟨r, tr⟩
    have key : Event.sessionOpened ∈ tr → Event.sessionReleased ∈ tr := by
      have h2 := mainAttempt_release sdk p cm
      rw [hma] at h2
      exact h2
    rw [hma] at h
    cases r with
    | error e =>
      dsimp only at h ⊢
      exact key h
    | ok o =>
      cases o with
      | none =>
        dsimp only at h ⊢
        exact key h
      | some msg =>
        dsimp only at h ⊢
        exact key h

/-- Witness for C8 at a concrete run that opens a session and raises. -/
theorem session_released_on_every_exit_path_witness :
    Event.sessionReleased ∈ (main inpFull false sdkHttpErr).2 :=
  session_released_on_every_exit_path inpFull false sdkHttpErr (by simp [main, mainAttempt,
    resolveParams, run_setup_idrac_syslog, sdkHttpErr, sdkOk, inpFull])

/-- C9: when the caller omits `idrac_port` the port used is 443; when the
caller omits `syslog` the desired state is `"Enabled"`; and a validated
`syslog` parameter is always one of `"Enabled"` / `"Disabled"` (any other
value is rejected before the module body runs). -/
theorem defaults_port_443_syslog_enabled_choices
    (inp : InputParams) (p : Params)
    (h : resolveParams inp = .ok p) :
    (inp.idrac_port = none → p.idrac_port = 443) ∧
    (inp.syslog = none → p.syslog = "Enabled") ∧
    (p.syslog = "Enabled" ∨ p.syslog = "Disabled") := by
  unfold resolveParams at h
  cases hip : inp.idrac_ip <;> rw [hip] at h <;>
    cases hu : inp.idrac_user <;> rw [hu] at h <;>
      cases hpw : inp.idrac_password <;> rw [hpw] at h <;>
        cases hs : inp.share_name <;> rw [hs] at h
  all_goals try exact (Except.noConfusion h)
  dsimp only at h
  by_cases hc : (inp.syslog.getD "Enabled" = "Enabled" ∨ inp.syslog.getD "Enabled" = "Disabled")
  · rw [if_pos hc] at h
    injection h with h2
    subst h2
    refine ⟨fun hport => ?_, fun hsys => ?_, hc⟩
    · show inp.idrac_port.getD 443 = 443
      rw [hport]
      rfl
    · show inp.syslog.getD "Enabled" = "Enabled"
      rw [hsys]
      rfl
  · rw [if_neg hc] at h
    exact (Except.noConfusion h)

/-- Witness for C9: `inpFull` omits `idrac_port`. -/
theorem defaults_port_443_syslog_enabled_choices_witness :
    (inpFull.idrac_port = none → pFull.idrac_port = 443) ∧
    (inpFull.syslog = none → pFull.syslog = "Enabled") ∧
    (pFull.syslog = "Enabled" ∨ pFull.syslog = "Disabled") :=
  defaults_port_443_syslog_enabled_choices inpFull pFull rfl

/-- C10: when the SDK call completes without raising and returns a result
whose `Status` is not `"Success"`, the module still terminates through
`exit_json` carrying that result with `changed=false` — a non-Success job
status is never reported as a hard failure. -/
theorem non_success_status_exits_success_unchanged
    (inp : InputParams) (cm : Bool) (sdk : SdkBehavior) (p : Params) (msg : Dict)
    (hp : resolveParams inp = .ok p)
    (hok : (mainAttempt sdk p cm).1 = .ok (some msg))
    (hst : dictGet msg "Status" ≠ some (JsonVal.str "Success")) :
    (main inp cm sdk).1 = .exitSuccess msg false := by
  have h1 := main_of_attempt_ok inp cm sdk p msg hp hok
  have h2 : computeChanged msg = false := by
    unfold computeChanged
    rw [if_neg (fun hb => hst ((pyEqStr_eq_true _ _).mp hb))]
  rw [h2] at h1
  exact h1

/-- Witness for C10: a run whose job result has `Status = "Failed"`. -/
theorem non_success_status_exits_success_unchanged_witness :
    (main inpFull false sdkFailedJob).1 = .exitSuccess msgFailed false :=
  non_success_status_exits_success_unchanged inpFull false sdkFailedJob pFull msgFailed
    rfl rfl (by simp [msgFailed, dictGet])

end IdracSyslog
